import Mathlib

/-!
Shallow embedding of the two automation scripts of this repository:
`scripts/update-header.py`, which rewrites the leading metadata block of
`README.md`, and `scripts/send-metadata.py`, which posts project metadata to a
portfolio repository through a GitHub repository-dispatch call.

File I/O, the YAML parser, the wall clock and the HTTP client are modelled at
the boundary: the configuration mapping, the environment variables, the
formatted current-date string and the outcome of `urllib.request.urlopen` are
explicit parameters of the embedded functions.  Python text lines are Lean
`String`s; `str.strip()` is modelled over the ASCII whitespace characters.
-/

namespace Scripts

/-- The whitespace characters stripped by Python's `str.strip()`
(restricted to ASCII). -/
def pyIsSpace (c : Char) : Bool :=
  c == ' ' || c == '\t' || c == '\n' || c == '\r' || c == '\x0b' || c == '\x0c'

/-- Python's `str.strip()` on the character list of a string: drop whitespace
from the front, then from the back. -/
def pyStripList (l : List Char) : List Char :=
  ((l.dropWhile pyIsSpace).reverse.dropWhile pyIsSpace).reverse

/-- The nested `project_metadata` mapping of `_config.yml`; its only
recognized key is `tags` (absent key modelled as `none`). -/
structure ProjectMetadata where
  tags : Option (List String)
deriving DecidableEq

/-- The `_config.yml` mapping restricted to the keys the scripts read
(`config.get` on an absent key is modelled by `none`). -/
structure Config where
  title : Option String
  description : Option String
  author : Option String
  logo : Option String
  project_metadata : Option ProjectMetadata
deriving DecidableEq

/-- `n` is a literal prefix of `l` (character-by-character comparison). -/
def isPrefixList : List Char → List Char → Bool
  | [], _ => true
  | _ :: _, [] => false
  | a :: as, b :: bs => a == b && isPrefixList as bs

/-- `needle` occurs contiguously inside the haystack. -/
def containsList (needle : List Char) : List Char → Bool
  | [] => needle.isEmpty
  | c :: cs => isPrefixList needle (c :: cs) || containsList needle cs

/-- Concatenation of a list of character lists (`f.writelines` joins the line
strings back into one file content). -/
def joinList : List (List Char) → List Char
  | [] => []
  | l :: ls => l ++ joinList ls

/-- Python's `f.readlines()` split of a file content: cut after every `'\n'`,
keeping the newline at the end of each line; a final fragment without a
trailing newline is kept as a last line; the empty content yields no lines. -/
def splitNL : List Char → List (List Char)
  | [] => []
  | c :: cs =>
      if c = '\n' then ['\n'] :: splitNL cs
      else
        match splitNL cs with
        | [] => [[c]]
        | l :: ls => (c :: l) :: ls

/-- A physical line closed by a newline: nonempty, ends with `'\n'`, and has
no interior `'\n'`. -/
def closedLine : List Char → Bool
  | [] => false
  | [c] => c == '\n'
  | c :: rest => !(c == '\n') && closedLine rest

/-- A final physical line with no trailing newline: nonempty and
newline-free. -/
def openLine (l : List Char) : Bool :=
  !(l.isEmpty) && decide ('\n' ∉ l)

/-- The shape `readlines` produces: every line closed by a newline, except
that the last may be an unterminated fragment. -/
def physicalLines : List (List Char) → Bool
  | [] => true
  | [l] => closedLine l || openLine l
  | l :: rest => closedLine l && physicalLines rest

namespace UpdateHeader

/-- `get_ordinal` from `scripts/update-header.py`: the `10 <= n % 100 <= 20`
guard, then the `{1: 'st', 2: 'nd', 3: 'rd'}.get(n % 10, 'th')` lookup, and
finally the f-string `f"{n}{suffix}"`. -/
def get_ordinal (n : Nat) : String :=
  let suffix :=
    if 10 ≤ n % 100 ∧ n % 100 ≤ 20 then "th"
    else
      match n % 10 with
      | 1 => "st"
      | 2 => "nd"
      | 3 => "rd"
      | _ => "th"
  Nat.repr n ++ suffix

/-- The ordinal-suffix rule exactly as the specification words it: if
`n % 100` lies in `[10, 20]` the suffix is `th`; otherwise `st` when
`n % 10 = 1`, `nd` when `n % 10 = 2`, `rd` when `n % 10 = 3`, and `th`
otherwise.  Stated separately from `get_ordinal` so the two can be compared. -/
def spec_ordinal_suffix (n : Nat) : String :=
  if 10 ≤ n % 100 ∧ n % 100 ≤ 20 then "th"
  else if n % 10 = 1 then "st"
  else if n % 10 = 2 then "nd"
  else if n % 10 = 3 then "rd"
  else "th"

/-- The metadata record built by `extract_metadata` in
`scripts/update-header.py`: the four string fields of the returned dict. -/
structure HeaderMetadata where
  title : String
  description : String
  author : String
  updated : String
deriving DecidableEq

/-- `extract_metadata` from `scripts/update-header.py`: `config.get` with the
documented default literals.  The formatted current date
(`format_date_with_ordinal(datetime.now())`) is an explicit parameter, the
wall clock being a boundary input. -/
def extract_metadata (config : Config) (current_date : String) : HeaderMetadata :=
  { title := config.title.getD "No Title"
    description := config.description.getD "No Description"
    author := config.author.getD "No Author"
    updated := current_date }

/-- The delimiter test of the `update_readme` loop: `line.strip() == "---"`. -/
def isDelim (line : String) : Bool :=
  decide (pyStripList line.data = ("---" : String).data)

/-- The counting loop of `update_readme`: number of lines strictly before the
first line whose stripped content is `---` (all lines when there is none). -/
def lines_to_remove : List String → Nat
  | [] => 0
  | l :: ls => if isDelim l then 0 else 1 + lines_to_remove ls

/-- The first inserted chunk of `update_readme`: `f"# {metadata['title']}\n\n"`. -/
def titleLine (md : HeaderMetadata) : String :=
  "# " ++ md.title ++ "\n\n"

/-- The second inserted chunk: `f"**{metadata['description']}**\n\n"`. -/
def descriptionLine (md : HeaderMetadata) : String :=
  "**" ++ md.description ++ "**\n\n"

/-- The third inserted chunk: `f"*Author: {metadata['author']}*\n\n"`. -/
def authorLine (md : HeaderMetadata) : String :=
  "*Author: " ++ md.author ++ "*\n\n"

/-- The fourth inserted chunk: `f"*Last Updated: {metadata['updated']}*\n\n"`. -/
def updatedLine (md : HeaderMetadata) : String :=
  "*Last Updated: " ++ md.updated ++ "*\n\n"

/-- `update_readme` from `scripts/update-header.py` on the line list read from
`README.md`: drop `lines_to_remove` leading lines, then the four
`lines.insert(0, ...)` calls, which leave the title chunk first. -/
def update_readme (md : HeaderMetadata) (lines : List String) : List String :=
  titleLine md :: descriptionLine md :: authorLine md :: updatedLine md ::
    lines.drop (lines_to_remove lines)

/-- `f.readlines()` on the file content: the physical lines, each a `String`
keeping its trailing newline. -/
def readlines (content : String) : List String :=
  (splitNL content.data).map String.mk

/-- `f.writelines(lines)`: the lines concatenated back into one file
content. -/
def writelines (lines : List String) : String :=
  String.mk (joinList (lines.map String.data))

/-- The whole `update_readme` function of `scripts/update-header.py` at the
file level: read the file into lines, rewrite the leading block, and write the
lines back.  This includes the serialize/re-split boundary a second run goes
through: the next invocation re-reads the written content with `readlines`,
splitting the inserted chunks at every physical newline. -/
def update_readme_file (md : HeaderMetadata) (content : String) : String :=
  writelines (update_readme md (readlines content))

end UpdateHeader

namespace SendMetadata

/-- A value stored in the metadata dict of `scripts/send-metadata.py`: a
string or a list of strings (the tags). -/
inductive PyValue where
  | str (s : String)
  | list (l : List String)
deriving DecidableEq

/-- `extract_metadata` from `scripts/send-metadata.py`, returning the dict as
an association list in the literal's key order.  The body reads the name
`deployed_url`, which is neither a parameter of the function nor a
module-level binding in the script (it is a local of `main`); that name lookup
is modelled by the `deployed_url : Option String` environment, `none` meaning
the lookup raises `NameError`.  `current_date` stands for
`datetime.now().strftime("%Y-%m-%d")`, the wall clock being a boundary input.
The local `logo_path` mirrors `config.get("logo", "")`; as in the source it is
never placed in the returned dict. -/
def extract_metadata (config : Config) (deployed_url : Option String)
    (current_date : String) : Except String (List (String × PyValue)) :=
  let title := config.title.getD "No Title"
  let description := config.description.getD "No Description"
  let author := config.author.getD "No Author"
  let logo_path := config.logo.getD ""
  let tags := (config.project_metadata.getD ⟨none⟩).tags.getD []
  match deployed_url with
  | none => Except.error "NameError: name deployed_url is not defined"
  | some u =>
      Except.ok [("title", PyValue.str title),
        ("description", PyValue.str description),
        ("author", PyValue.str author), ("tags", PyValue.list tags),
        ("url", PyValue.str u), ("updated", PyValue.str current_date)]

/-- Python truthiness of `os.environ.get(...)`: `None` and the empty string
are falsy, every other string is truthy. -/
def pyTruthy : Option String → Bool
  | none => false
  | some s => !(s == "")

/-- The observable outcome of `urllib.request.urlopen` on the dispatch POST:
a delivered response with its status and body, an `error.HTTPError`, or a
transport-level `error.URLError`. -/
inductive UrlopenOutcome where
  | response (status : Nat) (body : String)
  | httpError (code : Nat) (reason : String) (body : String)
  | urlError (reason : String)
deriving DecidableEq

/-- What a call of `send_repository_dispatch` does: whether the HTTP POST was
attempted, the lines printed to the operator, and the returned boolean. -/
structure DispatchResult where
  requestMade : Bool
  printed : List String
  success : Bool
deriving DecidableEq

/-- `send_repository_dispatch` from `scripts/send-metadata.py`.  The two
environment variables are explicit `Option String` inputs and the outcome of
the (single) `urlopen` call is an explicit input, only consulted when the
request is actually made.  `title` stands for `metadata['title']`. -/
def send_repository_dispatch (portfolio_repo portfolio_token : Option String)
    (title : String) (outcome : UrlopenOutcome) : DispatchResult :=
  if !(pyTruthy portfolio_repo) then
    { requestMade := false
      printed := ["Warning: PORTFOLIO_REPO environment variable not set",
        "Skipping portfolio notification"]
      success := false }
  else if !(pyTruthy portfolio_token) then
    { requestMade := false
      printed := ["Warning: PORTFOLIO_TOKEN environment variable not set",
        "Skipping portfolio notification"]
      success := false }
  else
    match outcome with
    | UrlopenOutcome.response status _body =>
        if status == 204 then
          { requestMade := true
            printed := ["✓ Successfully sent metadata to " ++ portfolio_repo.getD "",
              "  Event type: project-updated",
              "  Project: " ++ title]
            success := true }
        else
          { requestMade := true
            printed := ["Warning: Unexpected response code: " ++ Nat.repr status]
            success := false }
    | UrlopenOutcome.httpError code reason body =>
        { requestMade := true
          printed := ["Error sending repository dispatch: " ++ Nat.repr code ++ " " ++ reason,
            "Response: " ++ body]
          success := false }
    | UrlopenOutcome.urlError reason =>
        { requestMade := true
          printed := ["Error connecting to GitHub API: " ++ reason]
          success := false }

/-- A piece of response detail is surfaced to the operator when it occurs
inside one of the printed lines. -/
def Surfaced (needle : String) (r : DispatchResult) : Bool :=
  r.printed.any fun s => containsList needle.data s.data

/-- The call `extract_metadata(config, deployed_url)` at line 135 of
`scripts/send-metadata.py`.  `extract_metadata` is defined at line 34 with a
single parameter, so Python's arity check rejects this two-argument call with
a `TypeError` before the function body runs; the call can never return a
metadata record. -/
def extract_metadata_call (config : Config) (deployed_url : String) :
    Except String (List (String × PyValue)) :=
  Except.error "TypeError: extract_metadata() takes 1 positional argument but 2 were given"

/-- The exit status of `main` in `scripts/send-metadata.py` as a function of
the boundary inputs: the argument vector, the outcome of loading
`_config.yml` (`load_config` calls `sys.exit(1)` on a missing or malformed
file), the two environment variables and the `urlopen` outcome.  Control flow
follows the source: the argument check at line 123 exits 1; then
`load_config`; then the line-135 call `extract_metadata(config, deployed_url)`
— its uncaught `TypeError` terminates the interpreter with status 1; only if
that call returned a record would dispatch run and line 158 execute
`sys.exit(0 if success else 0)`. -/
def main_exit_code (argv : List String) (config_load : Except String Config)
    (repo token : Option String) (outcome : UrlopenOutcome) : Nat :=
  if argv.length < 2 then 1
  else
    match config_load with
    | Except.error _ => 1
    | Except.ok config =>
        match extract_metadata_call config (argv.getD 1 "") with
        | Except.error _ => 1
        | Except.ok metadata =>
            let success := (send_repository_dispatch repo token
              (match List.lookup "title" metadata with
                | some (PyValue.str s) => s
                | _ => "") outcome).success
            if success then 0 else 0

end SendMetadata

end Scripts

namespace Scripts

namespace UpdateHeader

/-- C3: for every integer `n ≥ 1`, `get_ordinal` returns the decimal
representation of `n` followed by the suffix chosen by the specification's
rule (`th` when `n % 100` is in `[10, 20]`, else `st`/`nd`/`rd` for ones
digit 1/2/3 and `th` otherwise); in particular the seven listed examples. -/
theorem get_ordinal_matches_spec :
    (∀ n : Nat, 1 ≤ n → get_ordinal n = Nat.repr n ++ spec_ordinal_suffix n) ∧
    get_ordinal 1 = "1st" ∧ get_ordinal 2 = "2nd" ∧ get_ordinal 3 = "3rd" ∧
    get_ordinal 11 = "11th" ∧ get_ordinal 12 = "12th" ∧
    get_ordinal 21 = "21st" ∧ get_ordinal 101 = "101st" := by
  refine ⟨?_, by decide, by decide, by decide, by decide, by decide, by decide, by decide⟩
  intro n _
  unfold get_ordinal spec_ordinal_suffix
  by_cases h : 10 ≤ n % 100 ∧ n % 100 ≤ 20
  · simp [h]
  · have h10 : n % 10 = 0 ∨ n % 10 = 1 ∨ n % 10 = 2 ∨ n % 10 = 3 ∨ n % 10 = 4 ∨
        n % 10 = 5 ∨ n % 10 = 6 ∨ n % 10 = 7 ∨ n % 10 = 8 ∨ n % 10 = 9 := by omega
    rcases h10 with h' | h' | h' | h' | h' | h' | h' | h' | h' | h' <;> simp [h, h']

/-- Witness for C3, instantiating the universal part at `n = 45`. -/
theorem get_ordinal_matches_spec_witness :
    get_ordinal 45 = Nat.repr 45 ++ spec_ordinal_suffix 45 :=
  get_ordinal_matches_spec.1 45 (by decide)

end UpdateHeader

theorem data_append (s t : String) : (s ++ t).data = s.data ++ t.data := rfl

theorem exists_dropWhile_eq_append (p : Char → Bool) (l : List Char) :
    ∃ l₁, l₁ ++ l.dropWhile p = l := by
  induction l with
  | nil => exact ⟨[], rfl⟩
  | cons c cs ih =>
    by_cases h : p c
    · obtain ⟨l₁, hl₁⟩ := ih
      exact ⟨c :: l₁, by simp [List.dropWhile_cons, h, hl₁]⟩
    · exact ⟨[], by simp [List.dropWhile_cons, h]⟩

/-- Stripping a string that starts with a non-whitespace character `c` yields
either the empty list or a list that still starts with `c`. -/
theorem pyStripList_cons_head (c : Char) (l : List Char) (hc : pyIsSpace c = false) :
    pyStripList (c :: l) = [] ∨ ∃ l', pyStripList (c :: l) = c :: l' := by
  have h1 : (c :: l).dropWhile pyIsSpace = c :: l := by
    simp [List.dropWhile_cons, hc]
  obtain ⟨l₁, hl₁⟩ := exists_dropWhile_eq_append pyIsSpace (c :: l).reverse
  unfold pyStripList
  rw [h1]
  have h2 : ((c :: l).reverse.dropWhile pyIsSpace).reverse ++ l₁.reverse = c :: l := by
    have h3 := congrArg List.reverse hl₁
    rwa [List.reverse_append, List.reverse_reverse] at h3
  cases hD : ((c :: l).reverse.dropWhile pyIsSpace).reverse with
  | nil => exact Or.inl rfl
  | cons x xs =>
    right
    rw [hD, List.cons_append] at h2
    have hx : x = c := (List.cons.injEq _ _ _ _).mp h2 |>.1
    exact ⟨xs, by rw [hx]⟩

theorem splitNL_cons_newline (cs : List Char) :
    splitNL ('\n' :: cs) = ['\n'] :: splitNL cs := by
  simp [splitNL]

theorem splitNL_cons_ne (c : Char) (cs : List Char) (hc : ¬ c = '\n') :
    splitNL (c :: cs) =
      match splitNL cs with
      | [] => [[c]]
      | l :: ls => (c :: l) :: ls := by
  simp [splitNL, hc]

/-- Splitting a content that starts with a newline-closed line cuts exactly
that line off the front. -/
theorem splitNL_closed (l b : List Char) (h : closedLine l = true) :
    splitNL (l ++ b) = l :: splitNL b := by
  induction l with
  | nil => simp [closedLine] at h
  | cons c cs ih =>
    cases cs with
    | nil =>
      have hc : c = '\n' := by simpa [closedLine] using h
      subst hc
      simpa using splitNL_cons_newline b
    | cons c' cs' =>
      have h1 : (c == '\n') = false ∧ closedLine (c' :: cs') = true := by
        simpa [closedLine, Bool.and_eq_true] using h
      have hc : ¬ c = '\n' := by simpa using h1.1
      have ih' := ih h1.2
      rw [List.cons_append, splitNL_cons_ne c _ hc, ih']

/-- Splitting an unterminated newline-free fragment yields that single line. -/
theorem splitNL_open (l : List Char) (h : openLine l = true) :
    splitNL l = [l] := by
  induction l with
  | nil => simp [openLine] at h
  | cons c cs ih =>
    have hmem : '\n' ∉ c :: cs := by simpa [openLine] using h
    have hc : ¬ c = '\n' := fun hcc => hmem (by rw [hcc]; exact List.mem_cons_self _ _)
    have hcs : '\n' ∉ cs := fun hin => hmem (List.mem_cons_of_mem c hin)
    cases cs with
    | nil =>
      rw [splitNL_cons_ne c [] hc]
      rfl
    | cons c' cs' =>
      have ih' := ih (by simp [openLine, hcs])
      rw [splitNL_cons_ne c _ hc, ih']


theorem closedLine_cons (a : Char) (ha : ¬ a = '\n') (m : List Char)
    (hm : closedLine m = true) : closedLine (a :: m) = true := by
  cases m with
  | nil => simp [closedLine] at hm
  | cons b bs => simp [closedLine, ha, hm]

theorem openLine_cons (a : Char) (m : List Char) (ha : ¬ a = '\n')
    (hm : openLine m = true) : openLine (a :: m) = true := by
  have hmem : '\n' ∉ m := of_decide_eq_true ((Bool.and_eq_true _ _).mp hm).2
  have hall : '\n' ∉ a :: m := by
    intro hin
    rcases List.mem_cons.mp hin with h1 | h2
    · exact ha h1.symm
    · exact hmem h2
  simp [openLine, hall]

theorem closedLine_append_newline (l : List Char) (h : '\n' ∉ l) :
    closedLine (l ++ ['\n']) = true := by
  induction l with
  | nil => rfl
  | cons c cs ih =>
    have hc : ¬ c = '\n' := fun hcc => h (by rw [hcc]; exact List.mem_cons_self _ _)
    have hcs : '\n' ∉ cs := fun hin => h (List.mem_cons_of_mem c hin)
    cases cs with
    | nil => simp [closedLine, hc]
    | cons c' cs' =>
      have ih' := ih hcs
      exact closedLine_cons c hc _ ih'

/-- `readlines` always produces physically shaped lines. -/
theorem physicalLines_splitNL (c : List Char) :
    physicalLines (splitNL c) = true := by
  induction c with
  | nil => rfl
  | cons a cs ih =>
    by_cases ha : a = '\n'
    · subst ha
      rw [splitNL_cons_newline]
      cases hs : splitNL cs with
      | nil => rfl
      | cons m ms =>
        rw [hs] at ih
        simp [physicalLines, closedLine, ih]
    · rw [splitNL_cons_ne a cs ha]
      cases hs : splitNL cs with
      | nil =>
        have hsym : ¬ ('\n' : Char) = a := fun hx => ha hx.symm
        simp [physicalLines, openLine, hsym]
      | cons m ms =>
        rw [hs] at ih
        cases ms with
        | nil =>
          rcases (show closedLine m = true ∨ openLine m = true by
              simpa [physicalLines] using ih) with hcm | hom
          · simp [physicalLines, closedLine_cons a ha m hcm]
          · simp [physicalLines, openLine_cons a m ha hom]
        | cons m' ms' =>
          have h2 := (Bool.and_eq_true _ _).mp (by simpa [physicalLines] using ih)
          simp [physicalLines, closedLine_cons a ha m h2.1, h2.2]

/-- Joining physically shaped lines and re-splitting reproduces them: the
serialize/re-read boundary is lossless on `readlines` output. -/
theorem splitNL_join_physical (L : List (List Char))
    (h : physicalLines L = true) : splitNL (joinList L) = L := by
  induction L with
  | nil => rfl
  | cons l rest ih =>
    cases rest with
    | nil =>
      rcases (show closedLine l = true ∨ openLine l = true by
          simpa [physicalLines] using h) with hc | ho
      · simpa [joinList] using splitNL_closed l [] hc
      · simpa [joinList] using splitNL_open l ho
    | cons l' rest' =>
      have h2 := (Bool.and_eq_true _ _).mp (by simpa [physicalLines] using h)
      have ih' := ih h2.2
      rw [show joinList (l :: l' :: rest') = l ++ joinList (l' :: rest') from rfl,
        splitNL_closed l _ h2.1, ih']

theorem physicalLines_tail (l : List Char) (L : List (List Char))
    (h : physicalLines (l :: L) = true) : physicalLines L = true := by
  cases L with
  | nil => rfl
  | cons m ms => exact ((Bool.and_eq_true _ _).mp (by simpa [physicalLines] using h)).2

theorem physicalLines_drop (L : List (List Char)) (k : Nat)
    (h : physicalLines L = true) : physicalLines (L.drop k) = true := by
  induction k generalizing L with
  | zero => simpa using h
  | succ n ih =>
    cases L with
    | nil => simpa using h
    | cons l rest => exact ih rest (physicalLines_tail l rest h)

/-- Splitting a rendered chunk `p ++ "\n\n"` (with `p` newline-free) followed
by anything yields the closed line `p ++ "\n"`, a blank line, and the split
of the rest. -/
theorem splitNL_content_chunk (p b : List Char) (hp : '\n' ∉ p) :
    splitNL ((p ++ ['\n', '\n']) ++ b) = (p ++ ['\n']) :: ['\n'] :: splitNL b := by
  have h1 : (p ++ ['\n', '\n']) ++ b = (p ++ ['\n']) ++ ('\n' :: b) := by
    simp [List.append_assoc]
  rw [h1, splitNL_closed (p ++ ['\n']) ('\n' :: b) (closedLine_append_newline p hp),
    splitNL_cons_newline]

theorem map_mk_map_data (rest : List String) :
    (rest.map String.data).map String.mk = rest := by
  simp only [List.map_map]
  have h : (String.mk ∘ String.data) = id := by
    funext s
    rfl
  rw [h, List.map_id]

namespace UpdateHeader

/-- A line whose first character is non-whitespace and differs from `-` is
never the delimiter. -/
theorem isDelim_eq_false_of_head (s : String) (c : Char) (l : List Char)
    (hs : s.data = c :: l) (hsp : pyIsSpace c = false) (hc : c ≠ '-') :
    isDelim s = false := by
  have hd : ("---" : String).data = ['-', '-', '-'] := rfl
  unfold isDelim
  rw [hs, hd]
  rcases pyStripList_cons_head c l hsp with h | ⟨l', h⟩
  · rw [h]
    simp
  · rw [h]
    simp [hc]

theorem lines_to_remove_of_no_delim (lines : List String)
    (h : ∀ l ∈ lines, isDelim l = false) :
    lines_to_remove lines = lines.length := by
  induction lines with
  | nil => rfl
  | cons a ls ih =>
    have ha : isDelim a = false := h a (List.mem_cons_self a ls)
    have ih' := ih fun l hl => h l (List.mem_cons_of_mem a hl)
    simp [lines_to_remove, ha, ih']
    omega

theorem lines_to_remove_append_delim (pre : List String) (d : String)
    (rest : List String) (hpre : ∀ l ∈ pre, isDelim l = false)
    (hd : isDelim d = true) :
    lines_to_remove (pre ++ d :: rest) = pre.length := by
  induction pre with
  | nil => simp [lines_to_remove, hd]
  | cons a ps ih =>
    have ha : isDelim a = false := hpre a (List.mem_cons_self a ps)
    have ih' := ih fun l hl => hpre l (List.mem_cons_of_mem a hl)
    simp [lines_to_remove, ha, ih']
    omega

/-- C1 counterexample: on a document with no delimiter line the rewriter does
NOT keep the original lines; prepending the four rendered lines to the
unchanged document is not what `update_readme` returns. -/
theorem update_readme_no_delim_counterexample :
    update_readme ⟨"T", "D", "A", "U1"⟩ ["hello\n"] ≠
      titleLine ⟨"T", "D", "A", "U1"⟩ :: descriptionLine ⟨"T", "D", "A", "U1"⟩ ::
        authorLine ⟨"T", "D", "A", "U1"⟩ :: updatedLine ⟨"T", "D", "A", "U1"⟩ ::
        ["hello\n"] := by
  decide

/-- C1 (amended): for every document containing no line whose stripped content
is `---`, `update_readme` does not fail, but it treats the entire file as the
block to discard: every original line is dropped and the output is exactly the
four freshly rendered metadata lines. -/
theorem update_readme_no_delim_discards_all (md : HeaderMetadata)
    (lines : List String) (h : ∀ l ∈ lines, isDelim l = false) :
    update_readme md lines =
      [titleLine md, descriptionLine md, authorLine md, updatedLine md] := by
  unfold update_readme
  rw [lines_to_remove_of_no_delim lines h, List.drop_length]

/-- Witness for C1 (amended) on a concrete two-line document. -/
theorem update_readme_no_delim_discards_all_witness :
    update_readme ⟨"T", "D", "A", "U1"⟩ ["hello\n", "world\n"] =
      [titleLine ⟨"T", "D", "A", "U1"⟩, descriptionLine ⟨"T", "D", "A", "U1"⟩,
       authorLine ⟨"T", "D", "A", "U1"⟩, updatedLine ⟨"T", "D", "A", "U1"⟩] :=
  update_readme_no_delim_discards_all ⟨"T", "D", "A", "U1"⟩ ["hello\n", "world\n"]
    (by decide)

/-- C2: for a document made of non-delimiter lines, then a delimiter line `d`,
then a remainder, the rewriter's output is the title chunk, the bolded
description chunk, the author chunk and the updated-date chunk (each chunk a
line followed by a blank line), then `d` itself, then the remainder unchanged. -/
theorem update_readme_delim_renders_header (md : HeaderMetadata)
    (pre : List String) (d : String) (rest : List String)
    (hpre : ∀ l ∈ pre, isDelim l = false) (hd : isDelim d = true) :
    update_readme md (pre ++ d :: rest) =
      titleLine md :: descriptionLine md :: authorLine md :: updatedLine md ::
        d :: rest := by
  unfold update_readme
  rw [lines_to_remove_append_delim pre d rest hpre hd, List.drop_left]

/-- Witness for C2 on a concrete document `old, ---, body`. -/
theorem update_readme_delim_renders_header_witness :
    update_readme ⟨"T", "D", "A", "U1"⟩ ["old\n", "---\n", "body\n"] =
      titleLine ⟨"T", "D", "A", "U1"⟩ :: descriptionLine ⟨"T", "D", "A", "U1"⟩ ::
        authorLine ⟨"T", "D", "A", "U1"⟩ :: updatedLine ⟨"T", "D", "A", "U1"⟩ ::
        "---\n" :: ["body\n"] :=
  update_readme_delim_renders_header ⟨"T", "D", "A", "U1"⟩ ["old\n"] "---\n"
    ["body\n"] (by decide) (by decide)

theorem update_readme_cons_form (md : HeaderMetadata) (lines : List String) :
    update_readme md lines = titleLine md :: descriptionLine md :: authorLine md ::
      updatedLine md :: lines.drop (lines_to_remove lines) := rfl

/-- After dropping the counted prefix, the remainder is either empty or starts
with a delimiter line. -/
theorem drop_lines_to_remove (lines : List String) :
    lines.drop (lines_to_remove lines) = [] ∨
      ∃ d rest, lines.drop (lines_to_remove lines) = d :: rest ∧ isDelim d = true := by
  induction lines with
  | nil => exact Or.inl rfl
  | cons a ls ih =>
    by_cases ha : isDelim a = true
    · exact Or.inr ⟨a, ls, by simp [lines_to_remove, ha], ha⟩
    · have ha' : isDelim a = false := by simpa using ha
      have hL : lines_to_remove (a :: ls) = 1 + lines_to_remove ls := by
        simp [lines_to_remove, ha']
      rcases ih with h | ⟨d, rest, h1, h2⟩
      · refine Or.inl ?_
        rw [hL, Nat.add_comm, List.drop_succ_cons]
        exact h
      · refine Or.inr ⟨d, rest, ?_, h2⟩
        rw [hL, Nat.add_comm, List.drop_succ_cons]
        exact h1

/-- C9 counterexample: a metadata record whose title contains an embedded
newline followed by `---` (a two-line YAML scalar).  The first run writes the
file; the second run re-reads it with `readlines`, which splits the rendered
title chunk into the physical lines `# x\n` and `---\n`, stops at that `---`
line, and keeps the stale description, author and old updated lines after it;
the result is not the first output with only the updated-date line replaced,
although both records agree on title, description and author. -/
theorem update_readme_file_newline_counterexample :
    update_readme_file ⟨"x\n---", "D", "A", "U2"⟩
        (update_readme_file ⟨"x\n---", "D", "A", "U1"⟩ "---\nR\n") ≠
      writelines ((update_readme ⟨"x\n---", "D", "A", "U1"⟩
        (readlines "---\nR\n")).set 3 (updatedLine ⟨"x\n---", "D", "A", "U2"⟩)) := by
  decide

/-- C9 (amended): running the header rewrite twice in succession — including
the intermediate write to the file and the `readlines` re-split the second run
performs — with metadata agreeing on title, description and author, and with
the first record's four fields free of embedded newlines, produces exactly the
first run's output with its updated-date line replaced by the second record's;
everything from the delimiter onwards is untouched. -/
theorem update_readme_file_roundtrip (md1 md2 : HeaderMetadata)
    (content : String) (ht : md1.title = md2.title)
    (hde : md1.description = md2.description) (ha : md1.author = md2.author)
    (hnt : '\n' ∉ md1.title.data) (hnd : '\n' ∉ md1.description.data)
    (hna : '\n' ∉ md1.author.data) (hnu : '\n' ∉ md1.updated.data) :
    update_readme_file md2 (update_readme_file md1 content) =
      writelines ((update_readme md1 (readlines content)).set 3 (updatedLine md2)) := by
  have hp1 : '\n' ∉ ('#' :: ' ' :: md1.title.data) := by simp [hnt]
  have hp2 : '\n' ∉ ('*' :: '*' :: (md1.description.data ++ ['*', '*'])) := by
    simp [hnd]
  have hp3 : '\n' ∉ ('*' :: 'A' :: 'u' :: 't' :: 'h' :: 'o' :: 'r' :: ':' :: ' ' ::
      (md1.author.data ++ ['*'])) := by simp [hna]
  have hp4 : '\n' ∉ ('*' :: 'L' :: 'a' :: 's' :: 't' :: ' ' :: 'U' :: 'p' :: 'd' :: 'a' ::
      't' :: 'e' :: 'd' :: ':' :: ' ' :: (md1.updated.data ++ ['*'])) := by simp [hnu]
  have d1 : (titleLine md1).data =
      ('#' :: ' ' :: md1.title.data) ++ ['\n', '\n'] := rfl
  have d2 : (descriptionLine md1).data =
      ('*' :: '*' :: (md1.description.data ++ ['*', '*'])) ++ ['\n', '\n'] := by
    show '*' :: '*' :: (md1.description.data ++ ['*', '*', '\n', '\n']) = _
    simp
  have d3 : (authorLine md1).data =
      ('*' :: 'A' :: 'u' :: 't' :: 'h' :: 'o' :: 'r' :: ':' :: ' ' ::
        (md1.author.data ++ ['*'])) ++ ['\n', '\n'] := by
    show '*' :: 'A' :: 'u' :: 't' :: 'h' :: 'o' :: 'r' :: ':' :: ' ' ::
      (md1.author.data ++ ['*', '\n', '\n']) = _
    simp
  have d4 : (updatedLine md1).data =
      ('*' :: 'L' :: 'a' :: 's' :: 't' :: ' ' :: 'U' :: 'p' :: 'd' :: 'a' :: 't' :: 'e' ::
        'd' :: ':' :: ' ' :: (md1.updated.data ++ ['*'])) ++ ['\n', '\n'] := by
    show '*' :: 'L' :: 'a' :: 's' :: 't' :: ' ' :: 'U' :: 'p' :: 'd' :: 'a' :: 't' :: 'e' ::
      'd' :: ':' :: ' ' :: (md1.updated.data ++ ['*', '\n', '\n']) = _
    simp
  have hdata : (update_readme_file md1 content).data =
      (titleLine md1).data ++ ((descriptionLine md1).data ++ ((authorLine md1).data ++
        ((updatedLine md1).data ++ joinList (((readlines content).drop
          (lines_to_remove (readlines content))).map String.data)))) := rfl
  have hmapdata : ((readlines content).drop (lines_to_remove (readlines content))).map
        String.data = (splitNL content.data).drop (lines_to_remove (readlines content)) := by
    rw [List.map_drop]
    congr 1
    unfold readlines
    rw [List.map_map]
    have h : (String.data ∘ String.mk) = id := by
      funext l
      rfl
    rw [h, List.map_id]
  have hsplit : splitNL (update_readme_file md1 content).data =
      (('#' :: ' ' :: md1.title.data) ++ ['\n']) :: ['\n'] ::
      (('*' :: '*' :: (md1.description.data ++ ['*', '*'])) ++ ['\n']) :: ['\n'] ::
      (('*' :: 'A' :: 'u' :: 't' :: 'h' :: 'o' :: 'r' :: ':' :: ' ' ::
        (md1.author.data ++ ['*'])) ++ ['\n']) :: ['\n'] ::
      (('*' :: 'L' :: 'a' :: 's' :: 't' :: ' ' :: 'U' :: 'p' :: 'd' :: 'a' :: 't' :: 'e' ::
        'd' :: ':' :: ' ' :: (md1.updated.data ++ ['*'])) ++ ['\n']) :: ['\n'] ::
      ((readlines content).drop (lines_to_remove (readlines content))).map String.data := by
    rw [hdata, d1, d2, d3, d4, splitNL_content_chunk _ _ hp1, splitNL_content_chunk _ _ hp2,
      splitNL_content_chunk _ _ hp3, splitNL_content_chunk _ _ hp4, hmapdata,
      splitNL_join_physical _ (physicalLines_drop _ _ (physicalLines_splitNL content.data)),
      ← hmapdata]
  have hread1 : readlines (update_readme_file md1 content) =
      String.mk (('#' :: ' ' :: md1.title.data) ++ ['\n']) :: String.mk ['\n'] ::
      String.mk (('*' :: '*' :: (md1.description.data ++ ['*', '*'])) ++ ['\n']) ::
      String.mk ['\n'] ::
      String.mk (('*' :: 'A' :: 'u' :: 't' :: 'h' :: 'o' :: 'r' :: ':' :: ' ' ::
        (md1.author.data ++ ['*'])) ++ ['\n']) :: String.mk ['\n'] ::
      String.mk (('*' :: 'L' :: 'a' :: 's' :: 't' :: ' ' :: 'U' :: 'p' :: 'd' :: 'a' ::
        't' :: 'e' :: 'd' :: ':' :: ' ' :: (md1.updated.data ++ ['*'])) ++ ['\n']) ::
      String.mk ['\n'] ::
      (readlines content).drop (lines_to_remove (readlines content)) := by
    rw [show readlines (update_readme_file md1 content) =
        (splitNL (update_readme_file md1 content).data).map String.mk from rfl, hsplit]
    simp only [List.map_cons]
    rw [map_mk_map_data]
  have hrest0 : lines_to_remove ((readlines content).drop
      (lines_to_remove (readlines content))) = 0 := by
    rcases drop_lines_to_remove (readlines content) with h | ⟨d, rest, h1, h2⟩
    · rw [h]
      rfl
    · rw [h1]
      simp [lines_to_remove, h2]
  have i1 : isDelim (String.mk ('#' :: ' ' :: (md1.title.data ++ ['\n']))) = false :=
    isDelim_eq_false_of_head _ '#' (' ' :: (md1.title.data ++ ['\n'])) rfl
      (by decide) (by decide)
  have i2 : isDelim (String.mk ['\n']) = false := by decide
  have i3 : isDelim (String.mk ('*' :: '*' :: (md1.description.data ++
      ['*', '*', '\n']))) = false :=
    isDelim_eq_false_of_head _ '*' ('*' :: (md1.description.data ++ ['*', '*', '\n']))
      rfl (by decide) (by decide)
  have i4 : isDelim (String.mk ('*' :: 'A' :: 'u' :: 't' :: 'h' :: 'o' :: 'r' :: ':' ::
      ' ' :: (md1.author.data ++ ['*', '\n']))) = false :=
    isDelim_eq_false_of_head _ '*' ('A' :: 'u' :: 't' :: 'h' :: 'o' :: 'r' :: ':' :: ' ' ::
      (md1.author.data ++ ['*', '\n'])) rfl (by decide) (by decide)
  have i5 : isDelim (String.mk ('*' :: 'L' :: 'a' :: 's' :: 't' :: ' ' :: 'U' :: 'p' ::
      'd' :: 'a' :: 't' :: 'e' :: 'd' :: ':' :: ' ' :: (md1.updated.data ++
      ['*', '\n']))) = false :=
    isDelim_eq_false_of_head _ '*' ('L' :: 'a' :: 's' :: 't' :: ' ' :: 'U' :: 'p' :: 'd' ::
      'a' :: 't' :: 'e' :: 'd' :: ':' :: ' ' :: (md1.updated.data ++ ['*', '\n'])) rfl
      (by decide) (by decide)
  have hk2 : lines_to_remove (readlines (update_readme_file md1 content)) = 8 := by
    rw [hread1]
    simp [lines_to_remove, i1, i2, i3, i4, i5, hrest0]
  have hfinal : update_readme md2 (readlines (update_readme_file md1 content)) =
      titleLine md2 :: descriptionLine md2 :: authorLine md2 :: updatedLine md2 ::
        (readlines content).drop (lines_to_remove (readlines content)) := by
    rw [update_readme_cons_form, hk2, hread1]
    rfl
  have hRHS : (update_readme md1 (readlines content)).set 3 (updatedLine md2) =
      titleLine md1 :: descriptionLine md1 :: authorLine md1 :: updatedLine md2 ::
        (readlines content).drop (lines_to_remove (readlines content)) := by
    rw [update_readme_cons_form]
    rfl
  have e1 : titleLine md2 = titleLine md1 := by unfold titleLine; rw [ht]
  have e2 : descriptionLine md2 = descriptionLine md1 := by
    unfold descriptionLine; rw [hde]
  have e3 : authorLine md2 = authorLine md1 := by unfold authorLine; rw [ha]
  calc update_readme_file md2 (update_readme_file md1 content)
      = writelines (update_readme md2 (readlines (update_readme_file md1 content))) := rfl
    _ = writelines (titleLine md2 :: descriptionLine md2 :: authorLine md2 ::
          updatedLine md2 ::
          (readlines content).drop (lines_to_remove (readlines content))) := by
        rw [hfinal]
    _ = writelines ((update_readme md1 (readlines content)).set 3 (updatedLine md2)) := by
        rw [hRHS, e1, e2, e3]

/-- Witness for C9 (amended) on a concrete document with a delimiter and
newline-free metadata, updated dates `U1` then `U2`. -/
theorem update_readme_file_roundtrip_witness :
    update_readme_file ⟨"T", "D", "A", "U2"⟩
        (update_readme_file ⟨"T", "D", "A", "U1"⟩ "old\n---\nbody\n") =
      writelines ((update_readme ⟨"T", "D", "A", "U1"⟩
        (readlines "old\n---\nbody\n")).set 3 (updatedLine ⟨"T", "D", "A", "U2"⟩)) :=
  update_readme_file_roundtrip ⟨"T", "D", "A", "U1"⟩ ⟨"T", "D", "A", "U2"⟩
    "old\n---\nbody\n" rfl rfl rfl (by decide) (by decide) (by decide) (by decide)

end UpdateHeader

theorem isPrefixList_self_append (n t : List Char) :
    isPrefixList n (n ++ t) = true := by
  induction n with
  | nil => rfl
  | cons c cs ih => simp [isPrefixList, ih]

theorem containsList_nil_needle (l : List Char) : containsList [] l = true := by
  induction l with
  | nil => rfl
  | cons c cs ih => simp [containsList, isPrefixList, ih]

theorem containsList_self_append (n t : List Char) :
    containsList n (n ++ t) = true := by
  cases n with
  | nil => simpa using containsList_nil_needle t
  | cons c cs => simp [containsList, isPrefixList, isPrefixList_self_append]

theorem containsList_self (n : List Char) : containsList n n = true := by
  simpa using containsList_self_append n []

theorem containsList_append_left (pre n l : List Char)
    (h : containsList n l = true) : containsList n (pre ++ l) = true := by
  induction pre with
  | nil => simpa using h
  | cons c cs ih => simp [containsList, ih]

theorem containsList_append_self (pre n : List Char) :
    containsList n (pre ++ n) = true :=
  containsList_append_left pre n n (containsList_self n)

theorem containsList_middle (a x b : List Char) :
    containsList x (a ++ (x ++ b)) = true :=
  containsList_append_left a x (x ++ b) (containsList_self_append x b)

namespace SendMetadata

theorem pyTruthy_none : pyTruthy none = false := rfl

theorem pyTruthy_empty : pyTruthy (some "") = false := rfl

theorem send_dispatch_response_eq (repo token : Option String) (title : String)
    (status : Nat) (body : String) (hr : pyTruthy repo = true)
    (ht : pyTruthy token = true) :
    send_repository_dispatch repo token title (UrlopenOutcome.response status body) =
      if status == 204 then
        { requestMade := true
          printed := ["✓ Successfully sent metadata to " ++ repo.getD "",
            "  Event type: project-updated",
            "  Project: " ++ title]
          success := true }
      else
        { requestMade := true
          printed := ["Warning: Unexpected response code: " ++ Nat.repr status]
          success := false } := by
  unfold send_repository_dispatch
  rw [hr, ht]
  simp

theorem send_dispatch_httpError_eq (repo token : Option String) (title : String)
    (code : Nat) (reason body : String) (hr : pyTruthy repo = true)
    (ht : pyTruthy token = true) :
    send_repository_dispatch repo token title
        (UrlopenOutcome.httpError code reason body) =
      { requestMade := true
        printed := ["Error sending repository dispatch: " ++ Nat.repr code ++ " " ++ reason,
          "Response: " ++ body]
        success := false } := by
  unfold send_repository_dispatch
  rw [hr, ht]
  simp

theorem send_dispatch_urlError_eq (repo token : Option String) (title : String)
    (reason : String) (hr : pyTruthy repo = true) (ht : pyTruthy token = true) :
    send_repository_dispatch repo token title (UrlopenOutcome.urlError reason) =
      { requestMade := true
        printed := ["Error connecting to GitHub API: " ++ reason]
        success := false } := by
  unfold send_repository_dispatch
  rw [hr, ht]
  simp

/-- C5: evaluating the dispatch extractor of `scripts/send-metadata.py` at a
configuration carrying `logo: logo.png` and deployed URL
`https://example.com` shows the bug: the returned record has no `logo_path`
field at all (the local `logo_path`, whose fallback is `""` rather than
`"No Logo"` and which is never joined with the URL, is dropped). -/
theorem extract_metadata_logo_path_missing :
    extract_metadata ⟨none, none, none, some "logo.png", none⟩
        (some "https://example.com") "2026-10-12" =
      Except.ok [("title", PyValue.str "No Title"),
        ("description", PyValue.str "No Description"),
        ("author", PyValue.str "No Author"), ("tags", PyValue.list []),
        ("url", PyValue.str "https://example.com"),
        ("updated", PyValue.str "2026-10-12")] ∧
    List.lookup "logo_path"
        [("title", PyValue.str "No Title"),
         ("description", PyValue.str "No Description"),
         ("author", PyValue.str "No Author"), ("tags", PyValue.list []),
         ("url", PyValue.str "https://example.com"),
         ("updated", PyValue.str "2026-10-12")] = none := by
  exact ⟨rfl, rfl⟩

/-- C6: on the empty configuration the extractors substitute the documented
default literals.  The dispatch extractor does so only when the `deployed_url`
name resolves; with the name unbound — as in the script, where it is only a
local of `main` — the same call fails with a `NameError`, and the header
utility's extractor substitutes its three defaults unconditionally. -/
theorem extract_metadata_defaults_eval :
    extract_metadata ⟨none, none, none, none, none⟩ none "2026-10-12" =
      Except.error "NameError: name deployed_url is not defined" ∧
    extract_metadata ⟨none, none, none, none, none⟩ (some "https://example.com")
        "2026-10-12" =
      Except.ok [("title", PyValue.str "No Title"),
        ("description", PyValue.str "No Description"),
        ("author", PyValue.str "No Author"), ("tags", PyValue.list []),
        ("url", PyValue.str "https://example.com"),
        ("updated", PyValue.str "2026-10-12")] ∧
    Scripts.UpdateHeader.extract_metadata ⟨none, none, none, none, none⟩
        "June 1st, 2026" =
      ⟨"No Title", "No Description", "No Author", "June 1st, 2026"⟩ :=
  ⟨rfl, rfl, rfl⟩

/-- C4: `main`'s exit status evaluated at the claim's scenarios.  With the
URL argument present, a loadable configuration, credentials set and a server
that would answer 204 — a run the claim says must exit 0 — the process exits
1 (the uncaught line-135 `TypeError`); the same for a run whose dispatch
would fail with a 422; the missing-argument and configuration-failure paths
also exit 1.  The exit status never reflects dispatch success. -/
theorem main_exit_code_eval :
    main_exit_code ["send-metadata.py", "https://example.com"]
        (Except.ok ⟨none, none, none, none, none⟩) (some "owner/repo")
        (some "tok") (UrlopenOutcome.response 204 "") = 1 ∧
    main_exit_code ["send-metadata.py", "https://example.com"]
        (Except.ok ⟨none, none, none, none, none⟩) (some "owner/repo")
        (some "tok") (UrlopenOutcome.httpError 422 "Unprocessable Entity" "d") = 1 ∧
    main_exit_code ["send-metadata.py"] (Except.ok ⟨none, none, none, none, none⟩)
        (some "owner/repo") (some "tok") (UrlopenOutcome.response 204 "") = 1 ∧
    main_exit_code ["send-metadata.py", "https://example.com"]
        (Except.error "ConfigNotFound") none none (UrlopenOutcome.response 204 "") = 1 :=
  ⟨rfl, rfl, rfl, rfl⟩

/-- C7: with `PORTFOLIO_REPO` or `PORTFOLIO_TOKEN` unset, the dispatch sender
makes no HTTP request, returns `False`, and warns the operator that the
notification is skipped. -/
theorem dispatch_missing_env_skips (repo token : Option String) (title : String)
    (o : UrlopenOutcome) (h : repo = none ∨ token = none) :
    (send_repository_dispatch repo token title o).requestMade = false ∧
    (send_repository_dispatch repo token title o).success = false ∧
    "Skipping portfolio notification" ∈
      (send_repository_dispatch repo token title o).printed := by
  rcases h with h | h
  · subst h
    simp [send_repository_dispatch, pyTruthy_none]
  · subst h
    by_cases hr : pyTruthy repo = true
    · simp [send_repository_dispatch, hr, pyTruthy_none]
    · have hr' : pyTruthy repo = false := by simpa using hr
      simp [send_repository_dispatch, hr']

/-- Witness for C7 with the repository variable unset and a token present. -/
theorem dispatch_missing_env_skips_witness :
    (send_repository_dispatch none (some "tok") "T"
        (UrlopenOutcome.response 204 "")).requestMade = false ∧
    (send_repository_dispatch none (some "tok") "T"
        (UrlopenOutcome.response 204 "")).success = false ∧
    "Skipping portfolio notification" ∈
      (send_repository_dispatch none (some "tok") "T"
        (UrlopenOutcome.response 204 "")).printed :=
  dispatch_missing_env_skips none (some "tok") "T"
    (UrlopenOutcome.response 204 "") (Or.inl rfl)

/-- C8 counterexample: a delivered `200` response with body `BODYTEXT` returns
failure, but the body is NOT surfaced in the output — only the status code is
— so "the response detail (status and body) is surfaced" fails as stated. -/
theorem dispatch_response_body_not_surfaced :
    (send_repository_dispatch (some "owner/repo") (some "tok") "T"
        (UrlopenOutcome.response 200 "BODYTEXT")).success = false ∧
    Surfaced "BODYTEXT"
        (send_repository_dispatch (some "owner/repo") (some "tok") "T"
          (UrlopenOutcome.response 200 "BODYTEXT")) = false := by
  exact ⟨rfl, by decide⟩

/-- C8 (amended): with both credentials truthy, the sender returns success
exactly on a delivered `204`; a delivered non-`204` response returns failure
and prints exactly the unexpected-status warning (status surfaced, body not
printed); an `HTTPError` returns failure and surfaces status, reason and
body; a transport-level `URLError` returns failure and surfaces the reason. -/
theorem dispatch_outcome_classification (repo token : Option String)
    (title : String) (hr : pyTruthy repo = true) (ht : pyTruthy token = true) :
    (∀ body, (send_repository_dispatch repo token title
        (UrlopenOutcome.response 204 body)).success = true) ∧
    (∀ status body, status ≠ 204 →
      (send_repository_dispatch repo token title
          (UrlopenOutcome.response status body)).success = false ∧
      (send_repository_dispatch repo token title
          (UrlopenOutcome.response status body)).printed =
        ["Warning: Unexpected response code: " ++ Nat.repr status] ∧
      Surfaced (Nat.repr status) (send_repository_dispatch repo token title
          (UrlopenOutcome.response status body)) = true) ∧
    (∀ code reason body,
      (send_repository_dispatch repo token title
          (UrlopenOutcome.httpError code reason body)).success = false ∧
      Surfaced (Nat.repr code) (send_repository_dispatch repo token title
          (UrlopenOutcome.httpError code reason body)) = true ∧
      Surfaced reason (send_repository_dispatch repo token title
          (UrlopenOutcome.httpError code reason body)) = true ∧
      Surfaced body (send_repository_dispatch repo token title
          (UrlopenOutcome.httpError code reason body)) = true) ∧
    (∀ reason,
      (send_repository_dispatch repo token title
          (UrlopenOutcome.urlError reason)).success = false ∧
      Surfaced reason (send_repository_dispatch repo token title
          (UrlopenOutcome.urlError reason)) = true) := by
  refine ⟨?_, ?_, ?_, ?_⟩
  · intro body
    rw [send_dispatch_response_eq repo token title 204 body hr ht]
    rfl
  · intro status body hs
    have hbeq : (status == 204) = false := by simp [hs]
    have hres : send_repository_dispatch repo token title
        (UrlopenOutcome.response status body) =
        { requestMade := true
          printed := ["Warning: Unexpected response code: " ++ Nat.repr status]
          success := false } := by
      rw [send_dispatch_response_eq repo token title status body hr ht]
      exact if_neg (by simp [hbeq])
    refine ⟨by rw [hres], by rw [hres], ?_⟩
    rw [hres]
    simp only [Surfaced, List.any_cons, List.any_nil, Bool.or_false]
    rw [data_append]
    exact containsList_append_self _ _
  · intro code reason body
    have hres := send_dispatch_httpError_eq repo token title code reason body hr ht
    refine ⟨by rw [hres], ?_, ?_, ?_⟩
    · rw [hres]
      simp only [Surfaced, List.any_cons, List.any_nil, Bool.or_false,
        Bool.or_eq_true]
      refine Or.inl ?_
      have hsplit :
          ("Error sending repository dispatch: " ++ Nat.repr code ++ " " ++ reason).data =
            ("Error sending repository dispatch: " : String).data ++
              ((Nat.repr code).data ++ ((" " : String).data ++ reason.data)) := by
        simp [data_append, List.append_assoc]
      rw [hsplit]
      exact containsList_middle _ _ _
    · rw [hres]
      simp only [Surfaced, List.any_cons, List.any_nil, Bool.or_false,
        Bool.or_eq_true]
      refine Or.inl ?_
      have hsplit :
          ("Error sending repository dispatch: " ++ Nat.repr code ++ " " ++ reason).data =
            (("Error sending repository dispatch: " ++ Nat.repr code ++ " ") : String).data ++
              reason.data := by
        simp [data_append]
      rw [hsplit]
      exact containsList_append_self _ _
    · rw [hres]
      simp only [Surfaced, List.any_cons, List.any_nil, Bool.or_false,
        Bool.or_eq_true]
      exact Or.inr (by rw [data_append]; exact containsList_append_self _ _)
  · intro reason
    have hres := send_dispatch_urlError_eq repo token title reason hr ht
    refine ⟨by rw [hres], ?_⟩
    rw [hres]
    simp only [Surfaced, List.any_cons, List.any_nil, Bool.or_false]
    rw [data_append]
    exact containsList_append_self _ _

/-- Witness for C8 (amended): concrete truthy credentials, a `204` success and
a `422` HTTP error. -/
theorem dispatch_outcome_classification_witness :
    (send_repository_dispatch (some "owner/repo") (some "tok") "T"
        (UrlopenOutcome.response 204 "")).success = true ∧
    (send_repository_dispatch (some "owner/repo") (some "tok") "T"
        (UrlopenOutcome.httpError 422 "Unprocessable Entity" "details")).success = false := by
  exact ⟨(dispatch_outcome_classification (some "owner/repo") (some "tok") "T"
      (by decide) (by decide)).1 "",
    ((dispatch_outcome_classification (some "owner/repo") (some "tok") "T"
      (by decide) (by decide)).2.2.1 422 "Unprocessable Entity" "details").1⟩

/-- C10: an environment variable set to the empty string behaves exactly as an
unset one: same result record (same warning, no request, failure returned). -/
theorem dispatch_empty_env_as_unset (repo token : Option String) (title : String)
    (o : UrlopenOutcome) :
    send_repository_dispatch (some "") token title o =
      send_repository_dispatch none token title o ∧
    send_repository_dispatch repo (some "") title o =
      send_repository_dispatch repo none title o ∧
    (send_repository_dispatch (some "") token title o).requestMade = false ∧
    (send_repository_dispatch (some "") token title o).success = false ∧
    (send_repository_dispatch repo (some "") title o).requestMade = false ∧
    (send_repository_dispatch repo (some "") title o).success = false := by
  by_cases hr : pyTruthy repo = true
  · refine ⟨?_, ?_, ?_, ?_, ?_, ?_⟩ <;>
      simp [send_repository_dispatch, pyTruthy_empty, pyTruthy_none, hr]
  · have hr' : pyTruthy repo = false := by simpa using hr
    refine ⟨?_, ?_, ?_, ?_, ?_, ?_⟩ <;>
      simp [send_repository_dispatch, pyTruthy_empty, pyTruthy_none, hr']

end SendMetadata

end Scripts
